import Mathlib

/-!
Shallow embedding of `src/notebooks/s3_client.py` (class `S3ClientHandler`).

The class is a facade over an object-storage SDK.  Every method is a
synchronous round trip: it builds an object key, issues one SDK call and
handles `ClientError` locally.  We embed the service as an oracle:

* a head/metadata probe is a function `String → Except ClientError Unit`
  (the outcome of `head_object` on a given key);
* a listing call is an `Except ClientError ListResponse` (the outcome of
  `list_objects_v2`), and a paginated listing is an
  `Except ClientError (List ListPage)`;
* for the claims that quantify over what the bucket actually stores, an
  `S3Service` holds the stored objects (key and byte size, in listing
  order) together with the service page cap, and we derive the responses
  the service would return.

Python exceptions raised by the facade itself are modelled by `PyError`;
lines written with `print` are collected in a log list, so every method
returns its value together with the log it emitted.
-/

/-- A `botocore.exceptions.ClientError`, identified by the error code the
service reports in `e.response["Error"]["Code"]`. -/
structure ClientError where
  code : String
  deriving DecidableEq, Repr

/-- An object stored in the bucket: its key and its size in bytes. -/
structure S3Object where
  key : String
  size : Nat
  deriving DecidableEq, Repr

/-- Exceptions the facade raises to its caller. -/
inductive PyError where
  | valueError (msg : String)
  | permissionError (msg : String)
  | clientError (e : ClientError)
  deriving DecidableEq, Repr

/-- Response of a single `list_objects_v2` call: the `"Contents"` entry is
absent (`none`) when the service reports no matches. -/
structure ListResponse where
  contents : Option (List S3Object)
  deriving DecidableEq, Repr

/-- One page produced by the `list_objects_v2` paginator; `page.get("Contents", [])`
reads the optional `"Contents"` entry with an empty default. -/
structure ListPage where
  contents : Option (List S3Object)
  deriving DecidableEq, Repr

/-- The bucket as the service sees it: the stored objects in listing order,
and the cap on how many keys one listing response may carry (AWS S3 returns
at most 1000 keys per response; the code never raises `MaxKeys`). -/
structure S3Service where
  objects : List S3Object
  pageSize : Nat
  deriving Repr

/-- Whether an object key starts with the listing path: the path's
characters are a prefix of the key's characters (the `Prefix` filter of
`list_objects_v2`). -/
def keyUnder (pfx : String) (k : String) : Bool :=
  pfx.data.isPrefixOf k.data

/-- Objects whose key starts with the given listing path. -/
def matchingObjects (svc : S3Service) (pfx : String) : List S3Object :=
  svc.objects.filter (fun o => keyUnder pfx o.key)

/-- The response the service returns for one unpaginated `list_objects_v2`
call: the first `pageSize` matching objects, or an absent `"Contents"` entry
when nothing matches. -/
def serviceListOnce (svc : S3Service) (pfx : String) : ListResponse :=
  let ms := matchingObjects svc pfx
  if ms.isEmpty then ⟨none⟩ else ⟨some (ms.take svc.pageSize)⟩

/-- Split a list into chunks of size `n` (the last one possibly shorter);
with `n = 0` it degenerates to singleton chunks.  Used to model how the
service slices the matching objects into listing pages. -/
def chunkPages (n : Nat) : List S3Object → List (List S3Object)
  | [] => []
  | x :: rest => (x :: rest.take (n - 1)) :: chunkPages n (rest.drop (n - 1))
termination_by xs => xs.length
decreasing_by
  simp only [List.length_drop, List.length_cons]
  omega

/-- The pages the `list_objects_v2` paginator yields for a listing path:
the matching objects sliced into pages of at most `pageSize` objects. -/
def servicePaginate (svc : S3Service) (pfx : String) : List ListPage :=
  (chunkPages svc.pageSize (matchingObjects svc pfx)).map (fun c => ⟨some c⟩)

/-- The state a successful `S3ClientHandler.__init__` leaves behind.  The
boto3 client handle is opaque and carries no information in the model. -/
structure S3ClientHandler where
  bucket_name : String
  deriving DecidableEq, Repr

/-- Lines 19-25 of `__init__`: resolve the bucket name from the explicit
argument or, when the argument is `None`, from the environment variable
`S3_BUCKET_NAME` (absent variables read as `None`, and both `None` and the
empty string are falsy, triggering the `ValueError`).  An explicit argument
is stored unchecked. -/
def resolveBucketName (bucketArg : Option String) (env : Option String) :
    Except PyError String :=
  match bucketArg with
  | none =>
    match env with
    | none => .error (.valueError "S3 bucket name not found in environment variables.")
    | some s =>
      if s = "" then
        .error (.valueError "S3 bucket name not found in environment variables.")
      else
        .ok s
  | some s => .ok s

/-- Embedding of `S3ClientHandler._check_permissions` (lines 29-44): issue a bounded
listing probe (`list_objects_v2` with `MaxKeys=1`); on `ClientError` map
`AccessDenied` to `PermissionError`, `NoSuchBucket` to `ValueError`, and
re-raise anything else. -/
def check_permissions (bucket : String) (probe : Except ClientError Unit) :
    Except PyError (List String) :=
  match probe with
  | .ok _ => .ok ["Permissions verified for bucket: " ++ bucket]
  | .error e =>
    if e.code = "AccessDenied" then
      .error (.permissionError ("Access denied to bucket: " ++ bucket))
    else if e.code = "NoSuchBucket" then
      .error (.valueError ("Bucket does not exist: " ++ bucket))
    else
      .error (.clientError e)

/-- Embedding of `S3ClientHandler.__init__` (lines 13-27): resolve the bucket name, then
run the permission probe against it; `listProbe b` is the outcome of the
bounded `list_objects_v2` call on bucket `b`. -/
def s3init (bucketArg : Option String) (env : Option String)
    (listProbe : String → Except ClientError Unit) : Except PyError S3ClientHandler :=
  match resolveBucketName bucketArg env with
  | .error e => .error e
  | .ok b =>
    match check_permissions b (listProbe b) with
    | .error e => .error e
    | .ok _ => .ok ⟨b⟩

/-- Embedding of `S3ClientHandler.list_files` (lines 46-58) applied to the outcome of its
single `list_objects_v2` call: the keys of the `"Contents"` entry when
present, `[]` when absent, and on `ClientError` a logged message and `[]`.
Returns the key list together with the printed log lines. -/
def list_files (resp : Except ClientError ListResponse) :
    List String × List String :=
  match resp with
  | .ok r =>
    match r.contents with
    | some objs => (objs.map (fun o => o.key), [])
    | none => ([], [])
  | .error e => ([], ["Error listing files: " ++ e.code])

/-- Embedding of `S3ClientHandler.list_files_with_sizes` (lines 137-156) applied to the
outcome of its paginated listing: one `(file_name, size_bytes)` row per
object reported in any page (`page.get("Contents", [])` per page, inner
loop over its objects), and on `ClientError` a logged message and an empty
table.  Returns the rows together with the printed log lines. -/
def list_files_with_sizes (pages : Except ClientError (List ListPage)) :
    List (String × Nat) × List String :=
  match pages with
  | .ok ps =>
    ((ps.map (fun p => (p.contents.getD []).map (fun o => (o.key, o.size)))).flatten, [])
  | .error e => ([], ["Error listing files: " ++ e.code])

/-- The object key built on line 112 (`check_geodataframe_exists`), line 73
(`upload_geodataframe`) and line 85 (`get_geodataframe`):
`f"{folder}/{file_name}.geojson"`. -/
def geoKey (file_name : String) (folder : String) : String :=
  folder ++ "/" ++ file_name ++ ".geojson"

/-- The object key built on line 99 (`get_excel_file`):
`f"{folder}/{file_name}.xlsx"`. -/
def excelKey (file_name : String) (folder : String) : String :=
  folder ++ "/" ++ file_name ++ ".xlsx"

/-- The object key built on line 127 (`check_file_exists`):
`f"{folder}/{file_name}"`. -/
def fileKey (file_name : String) (folder : String) : String :=
  folder ++ "/" ++ file_name

/-- Embedding of `S3ClientHandler.check_geodataframe_exists` (lines 107-120): probe
`head_object` on `f"{folder}/{file_name}.geojson"`; `True` on success,
`False` without logging on error code `"404"`, `False` with a logged
message on any other `ClientError`.  `headSvc k` is the outcome of
`head_object` on key `k`; the Python default for `folder` is
`"amenities"`. -/
def check_geodataframe_exists (headSvc : String → Except ClientError Unit)
    (file_name : String) (folder : String) : Bool × List String :=
  match headSvc (geoKey file_name folder) with
  | .ok _ => (true, [])
  | .error e =>
    if e.code = "404" then
      (false, [])
    else
      (false, ["Error checking file existence: " ++ e.code])

/-- Embedding of `S3ClientHandler.check_file_exists` (lines 122-135): probe `head_object`
on `f"{folder}/{file_name}"`; `True` on success, `False` without logging on
error code `"404"`, `False` with a logged message on any other
`ClientError`.  The Python default for `folder` is `""`. -/
def check_file_exists (headSvc : String → Except ClientError Unit)
    (file_name : String) (folder : String) : Bool × List String :=
  match headSvc (fileKey file_name folder) with
  | .ok _ => (true, [])
  | .error e =>
    if e.code = "404" then
      (false, [])
    else
      (false, ["Error checking file existence: " ++ e.code])

/-!
The upload/download methods wrap their try/except in a
`with NamedTemporaryFile(delete=True) as temp_file:` block.  We model the
execution of such a method as the sequence of resource and service events
it performs, driven by the outcome of the try-block body: the body either
runs to completion, raises a `ClientError` that the `except` clause
catches, or raises some other exception that escapes the method.
-/

/-- Resource and service events an upload/download call performs. -/
inductive Event where
  | tempCreate
  | tempRemove
  | svcCall (op : String)
  deriving DecidableEq, Repr

/-- Outcome of the try-block body inside the `with` block: normal
completion with a value, a `ClientError` (caught by the `except` clause),
or any other exception (uncaught, escaping the method). -/
inductive BodyOutcome (α : Type) where
  | ok (v : α)
  | clientErr (e : ClientError)
  | uncaught
  deriving DecidableEq, Repr

/-- Result of running one upload/download call: the events it performed in
order, the value it returned (`none` when no value was returned), whether
an exception escaped the call, and the log lines it printed. -/
structure RunResult (α : Type) where
  events : List Event
  retVal : Option α
  raised : Bool
  log : List String
  deriving Repr

/-- CPython semantics of `with NamedTemporaryFile(delete=True) as temp_file:`:
entering the block creates the temporary file, and leaving it — by normal
completion, by `return`, or by an exception unwinding through it — closes
the file, which with `delete=True` removes it.  The body events are framed
by the create and remove events. -/
def withTempFile (bodyEvents : List Event) : List Event :=
  Event.tempCreate :: bodyEvents ++ [Event.tempRemove]

/-- Embedding of `S3ClientHandler.upload_geodataframe` (lines 66-78): inside the
temporary-file block, serialize the frame and upload it
(`upload_file`); a `ClientError` is caught and logged, any other exception
escapes.  The method returns no value. -/
def upload_geodataframe_run (outcome : BodyOutcome Unit) : RunResult Unit :=
  match outcome with
  | .ok _ =>
    ⟨withTempFile [Event.svcCall "upload_file"], some (), false,
      ["Uploaded amenities"]⟩
  | .clientErr e =>
    ⟨withTempFile [Event.svcCall "upload_file"], none, false,
      ["Error uploading file: " ++ e.code]⟩
  | .uncaught =>
    ⟨withTempFile [Event.svcCall "upload_file"], none, true, []⟩

/-- Embedding of `S3ClientHandler.get_geodataframe` (lines 79-91): inside the
temporary-file block, download the object (`download_file`) and deserialize
it, returning the frame from within the block; a `ClientError` is caught,
logged, and `None` is returned; any other exception escapes.  `γ` stands
for the GeoDataFrame value. -/
def get_geodataframe_run {γ : Type} (outcome : BodyOutcome γ) : RunResult γ :=
  match outcome with
  | .ok g =>
    ⟨withTempFile [Event.svcCall "download_file"], some g, false, []⟩
  | .clientErr e =>
    ⟨withTempFile [Event.svcCall "download_file"], none, false,
      ["Error downloading file: " ++ e.code]⟩
  | .uncaught =>
    ⟨withTempFile [Event.svcCall "download_file"], none, true, []⟩

/-- Embedding of `S3ClientHandler.get_excel_file` (lines 93-105): same shape as
`get_geodataframe` with the spreadsheet reader; `δ` stands for the
DataFrame value. -/
def get_excel_file_run {δ : Type} (outcome : BodyOutcome δ) : RunResult δ :=
  match outcome with
  | .ok d =>
    ⟨withTempFile [Event.svcCall "download_file"], some d, false, []⟩
  | .clientErr e =>
    ⟨withTempFile [Event.svcCall "download_file"], none, false,
      ["Error downloading file: " ++ e.code]⟩
  | .uncaught =>
    ⟨withTempFile [Event.svcCall "download_file"], none, true, []⟩

/-!
Helper lemmas shared between claims.
-/

/-- Flattening the pages of a chunked list recovers the list: the paginator
loses no object and repeats none. -/
theorem chunkPages_flatten (n : Nat) (xs : List S3Object) :
    (chunkPages n xs).flatten = xs := by
  induction xs using chunkPages.induct n with
  | case1 => simp [chunkPages]
  | case2 x rest ih =>
    rw [chunkPages, List.flatten_cons, ih, List.cons_append, List.take_append_drop]

/-- A bucket name resolved without an explicit argument, or from a
non-empty explicit argument, is non-empty. -/
theorem resolveBucketName_ok_nonempty (bucketArg env : Option String) (b : String)
    (hok : resolveBucketName bucketArg env = .ok b) (harg : bucketArg ≠ some "") :
    b ≠ "" := by
  match bucketArg, env with
  | none, none => simp [resolveBucketName] at hok
  | none, some s =>
    by_cases hs : s = ""
    · simp [resolveBucketName, hs] at hok
    · simp [resolveBucketName, hs] at hok
      subst hok
      exact hs
  | some s, env =>
    simp [resolveBucketName] at hok
    subst hok
    intro hcon
    exact harg (by rw [hcon])

/-!
Claims.
-/

/-- C6: when the construction-time bounded listing probe fails, construction
fails, and the failure kind follows the reported error code: `AccessDenied`
yields a `PermissionError`, `NoSuchBucket` yields a `ValueError` (a
not-found error), and any other `ClientError` is re-raised to the caller
unchanged. -/
theorem C6_probe_failure_is_fatal (bucketArg env : Option String)
    (listProbe : String → Except ClientError Unit) (b : String) (e : ClientError)
    (hres : resolveBucketName bucketArg env = .ok b)
    (hprobe : listProbe b = .error e) :
    (e.code = "AccessDenied" →
      s3init bucketArg env listProbe =
        .error (.permissionError ("Access denied to bucket: " ++ b))) ∧
    (e.code = "NoSuchBucket" →
      s3init bucketArg env listProbe =
        .error (.valueError ("Bucket does not exist: " ++ b))) ∧
    (e.code ≠ "AccessDenied" → e.code ≠ "NoSuchBucket" →
      s3init bucketArg env listProbe = .error (.clientError e)) := by
  refine ⟨fun h1 => ?_, fun h2 => ?_, fun h1 h2 => ?_⟩
  · simp [s3init, hres, check_permissions, hprobe, h1]
  · simp [s3init, hres, check_permissions, hprobe, h2]
  · simp [s3init, hres, check_permissions, hprobe, h1, h2]

/-- Concrete instance of `C6_probe_failure_is_fatal`: an `AccessDenied`
probe failure surfaces as a `PermissionError`. -/
theorem C6_probe_failure_witness :
    s3init (some "bkt") none (fun _ => .error ⟨"AccessDenied"⟩) =
      .error (.permissionError ("Access denied to bucket: " ++ "bkt")) :=
  (C6_probe_failure_is_fatal (some "bkt") none
    (fun _ => .error ⟨"AccessDenied"⟩) "bkt" ⟨"AccessDenied"⟩ rfl rfl).1 rfl

/-- C7: with no explicit bucket name and an absent or empty environment
variable, construction fails with the configuration `ValueError`, whatever
the service would have answered. -/
theorem C7_missing_bucket_name_fails (env : Option String)
    (listProbe : String → Except ClientError Unit)
    (henv : env = none ∨ env = some "") :
    s3init none env listProbe =
      .error (.valueError "S3 bucket name not found in environment variables.") := by
  rcases henv with h | h <;> subst h <;> rfl

/-- Concrete instance of `C7_missing_bucket_name_fails` with an absent
environment variable. -/
theorem C7_missing_bucket_name_witness :
    s3init none none (fun _ => .ok ()) =
      .error (.valueError "S3 bucket name not found in environment variables.") :=
  C7_missing_bucket_name_fails none (fun _ => .ok ()) (Or.inl rfl)

/-- C8: `list_files` never raises: it is a total function of the listing
outcome; for every listing path (the empty one included), a response with
no matches (`"Contents"` absent) yields the empty list with nothing logged,
and a `ClientError` is swallowed, logged, and yields the empty list. -/
theorem C8_list_files_never_raises (svc : S3Service) (pfx : String) (e : ClientError)
    (hnone : matchingObjects svc pfx = []) :
    list_files (.ok (serviceListOnce svc pfx)) = ([], []) ∧
    list_files (.error e) = ([], ["Error listing files: " ++ e.code]) := by
  constructor
  · simp [serviceListOnce, hnone, list_files]
  · rfl

/-- Concrete instance of `C8_list_files_never_raises`: an empty bucket,
the empty listing path, and a throttling error. -/
theorem C8_list_files_witness :
    list_files (.ok (serviceListOnce ⟨[], 1000⟩ "")) = ([], []) ∧
    list_files (.error ⟨"SlowDown"⟩) =
      ([], ["Error listing files: " ++ "SlowDown"]) :=
  C8_list_files_never_raises ⟨[], 1000⟩ "" ⟨"SlowDown"⟩ rfl

/-- C3: for every name and folder, both existence probes return `true` with
nothing logged when the metadata probe succeeds, `false` with nothing
logged when the service reports `404`, and `false` with a logged message on
any other `ClientError`.  Both are total functions of the probe outcome,
so no service error ever reaches the caller. -/
theorem C3_existence_probes (headSvc : String → Except ClientError Unit)
    (file_name folder : String) (e : ClientError) :
    (headSvc (geoKey file_name folder) = .ok () →
      check_geodataframe_exists headSvc file_name folder = (true, [])) ∧
    (headSvc (geoKey file_name folder) = .error e → e.code = "404" →
      check_geodataframe_exists headSvc file_name folder = (false, [])) ∧
    (headSvc (geoKey file_name folder) = .error e → e.code ≠ "404" →
      check_geodataframe_exists headSvc file_name folder =
        (false, ["Error checking file existence: " ++ e.code])) ∧
    (headSvc (fileKey file_name folder) = .ok () →
      check_file_exists headSvc file_name folder = (true, [])) ∧
    (headSvc (fileKey file_name folder) = .error e → e.code = "404" →
      check_file_exists headSvc file_name folder = (false, [])) ∧
    (headSvc (fileKey file_name folder) = .error e → e.code ≠ "404" →
      check_file_exists headSvc file_name folder =
        (false, ["Error checking file existence: " ++ e.code])) := by
  refine ⟨fun h => ?_, fun h h4 => ?_, fun h h4 => ?_,
    fun h => ?_, fun h h4 => ?_, fun h h4 => ?_⟩ <;>
    simp [check_geodataframe_exists, check_file_exists, h] <;>
    simp [h4]

/-- Concrete instance of `C3_existence_probes`: a probe that reports `404`
on every key makes the geospatial check return `false` without logging. -/
theorem C3_existence_probes_witness :
    check_geodataframe_exists (fun _ => .error ⟨"404"⟩) "f" "amenities" = (false, []) :=
  ((C3_existence_probes (fun _ => .error ⟨"404"⟩) "f" "amenities" ⟨"404"⟩).2.1) rfl rfl

/-- C10: the geospatial existence probe coincides with the generic one
applied to the name with the `.geojson` suffix appended, for the same
service, name and folder. -/
theorem C10_geo_probe_refines_generic (headSvc : String → Except ClientError Unit)
    (file_name folder : String) :
    check_geodataframe_exists headSvc file_name folder =
      check_file_exists headSvc (file_name ++ ".geojson") folder := by
  have hk : fileKey (file_name ++ ".geojson") folder = geoKey file_name folder := by
    simp [fileKey, geoKey, String.append_assoc]
  simp only [check_geodataframe_exists, check_file_exists, hk]

/-- C1 counterexample: `list_files` issues one unpaginated `list_objects_v2`
call, so a stored key beyond the service page cap never appears.  With two
stored objects and a page cap of one, the key `"b"` starts with the listing
path `""` and is stored, yet is missing from the returned sequence; the
claim "every key under the prefix appears, regardless of how many keys
there are" is false of the code. -/
theorem C1_counterexample :
    (⟨"b", 0⟩ : S3Object) ∈ S3Service.objects ⟨[⟨"a", 0⟩, ⟨"b", 0⟩], 1⟩ ∧
    keyUnder "" "b" = true ∧
    "b" ∉ (list_files (.ok (serviceListOnce ⟨[⟨"a", 0⟩, ⟨"b", 0⟩], 1⟩ ""))).1 := by
  decide

/-- C1 amended: `list_files` returns exactly the first listing page, so it
returns every stored key under the prefix precisely when the number of
matching keys does not exceed the service page cap; in that case the
returned sequence is the full list of matching keys in listing order. -/
theorem C1_amended_all_keys_within_page (svc : S3Service) (pfx : String)
    (hlen : (matchingObjects svc pfx).length ≤ svc.pageSize) :
    (list_files (.ok (serviceListOnce svc pfx))).1 =
      (matchingObjects svc pfx).map (fun o => o.key) := by
  have ht : (matchingObjects svc pfx).take svc.pageSize = matchingObjects svc pfx :=
    List.take_of_length_le hlen
  by_cases hm : (matchingObjects svc pfx).isEmpty
  · rw [List.isEmpty_iff] at hm
    simp [serviceListOnce, hm, list_files]
  · simp [serviceListOnce, hm, list_files, ht]

/-- Concrete instance of `C1_amended_all_keys_within_page`: one stored
object under the default page cap is listed in full. -/
theorem C1_amended_witness :
    (matchingObjects ⟨[⟨"a", 0⟩], 1000⟩ "").length ≤ 1000 ∧
    (list_files (.ok (serviceListOnce ⟨[⟨"a", 0⟩], 1000⟩ ""))).1 =
      (matchingObjects ⟨[⟨"a", 0⟩], 1000⟩ "").map (fun o => o.key) :=
  ⟨by decide, C1_amended_all_keys_within_page ⟨[⟨"a", 0⟩], 1000⟩ "" (by decide)⟩

/-- C2 counterexample: an explicitly supplied bucket name is stored without
any check, so constructing with the explicit empty string succeeds (when
the permission probe succeeds) and leaves an empty bucket name; the claim
"construction either establishes a non-empty bucket name or fails" is
false of the code for the explicit empty-string argument. -/
theorem C2_counterexample :
    s3init (some "") none (fun _ => .ok ()) = .ok ⟨""⟩ ∧
    S3ClientHandler.bucket_name ⟨""⟩ = "" := ⟨rfl, rfl⟩

/-- C2 amended: the non-emptiness check guards only the environment path;
whenever construction succeeds and the explicit argument was not the empty
string (it was absent, or a non-empty string), the stored bucket name is
non-empty. -/
theorem C2_amended_bucket_nonempty (bucketArg env : Option String)
    (listProbe : String → Except ClientError Unit) (st : S3ClientHandler)
    (hok : s3init bucketArg env listProbe = .ok st)
    (harg : bucketArg ≠ some "") :
    st.bucket_name ≠ "" := by
  rcases hr : resolveBucketName bucketArg env with e | b
  · simp [s3init, hr] at hok
  · rcases hc : check_permissions b (listProbe b) with e | u
    · simp [s3init, hr, hc] at hok
    · simp [s3init, hr, hc] at hok
      rw [← hok]
      exact resolveBucketName_ok_nonempty bucketArg env b hr harg
/-- Concrete instance of `C2_amended_bucket_nonempty`: constructing with
the explicit name `"bkt"` yields a non-empty stored bucket name. -/
theorem C2_amended_witness :
    S3ClientHandler.bucket_name ⟨"bkt"⟩ ≠ "" :=
  C2_amended_bucket_nonempty (some "bkt") none (fun _ => .ok ()) ⟨"bkt"⟩ rfl (by decide)

/-- C4 counterexample: with no folder given, `check_file_exists` builds the
key `f"{folder}/{file_name}"` with the empty default folder, which is
`"/a"` for the raw name `"a"` — not the raw key itself.  A service that
stores exactly the object `"a"` answers `404` to the probe for `"a"`, so
the probe misses the object; the claim "uses exactly the caller-supplied
raw key" is false of the code. -/
theorem C4_counterexample :
    fileKey "a" "" = "/a" ∧
    fileKey "a" "" ≠ "a" ∧
    check_file_exists (fun k => if k = "a" then .ok () else .error ⟨"404"⟩) "a" "" =
      (false, []) := by
  refine ⟨rfl, by decide, rfl⟩

/-- C4 amended: with no folder given, `check_file_exists` probes the key
`"/" ++ file_name` — the layout `{folder}/{file_name}` instantiated with
the empty folder — which always differs from the raw key `file_name`;
geospatial operations use `{folder}/{file_name}.geojson` and tabular
operations `{folder}/{file_name}.xlsx`. -/
theorem C4_amended_key_layout (file_name folder : String) :
    fileKey file_name "" = "/" ++ file_name ∧
    "/" ++ file_name ≠ file_name ∧
    geoKey file_name folder = folder ++ "/" ++ file_name ++ ".geojson" ∧
    excelKey file_name folder = folder ++ "/" ++ file_name ++ ".xlsx" := by
  refine ⟨by simp [fileKey], ?_, rfl, rfl⟩
  intro hcon
  have hlen := congrArg String.length hcon
  rw [String.length_append] at hlen
  have h1 : "/".length = 1 := rfl
  omega

/-- C5: `list_files_with_sizes` returns exactly one `(key, size_bytes)` row
per stored object under the listing path, in listing order across all
pages the paginator yields, each row carrying the object's exact byte
size; on a `ClientError` it returns the empty table and logs. -/
theorem C5_one_row_per_object (svc : S3Service) (pfx : String) (e : ClientError) :
    (list_files_with_sizes (.ok (servicePaginate svc pfx))).1 =
      (matchingObjects svc pfx).map (fun o => (o.key, o.size)) ∧
    list_files_with_sizes (.error e) = ([], ["Error listing files: " ++ e.code]) := by
  constructor
  · simp only [list_files_with_sizes, servicePaginate, List.map_map]
    have hcomp :
        ((fun p : ListPage => List.map (fun o => (o.key, o.size)) (p.contents.getD [])) ∘
            fun c => (⟨some c⟩ : ListPage)) =
          fun c => List.map (fun o => (o.key, o.size)) c := by
      funext c
      rfl
    rw [hcomp, ← List.map_flatten, chunkPages_flatten]
  · rfl

/-- C9: every upload and download call creates its temporary file on entry
and removes it on exit, whatever the body outcome — normal completion, a
`ClientError` caught by the handler, or an uncaught exception — and the
removal is the last event, performed exactly once. -/
theorem C9_tempfile_removed_on_all_paths {γ δ : Type}
    (ou : BodyOutcome Unit) (og : BodyOutcome γ) (ox : BodyOutcome δ) :
    ((upload_geodataframe_run ou).events.head? = some Event.tempCreate ∧
      (upload_geodataframe_run ou).events.getLast? = some Event.tempRemove ∧
      (upload_geodataframe_run ou).events.count Event.tempRemove = 1) ∧
    ((get_geodataframe_run og).events.head? = some Event.tempCreate ∧
      (get_geodataframe_run og).events.getLast? = some Event.tempRemove ∧
      (get_geodataframe_run og).events.count Event.tempRemove = 1) ∧
    ((get_excel_file_run ox).events.head? = some Event.tempCreate ∧
      (get_excel_file_run ox).events.getLast? = some Event.tempRemove ∧
      (get_excel_file_run ox).events.count Event.tempRemove = 1) := by
  cases ou <;> cases og <;> cases ox <;>
    simp [upload_geodataframe_run, get_geodataframe_run, get_excel_file_run,
      withTempFile, List.count_cons, List.count_nil, List.getLast?]

/-- Concrete instance of `C4_amended_key_layout` at name `"a"` and folder
`"d"`. -/
theorem C4_amended_witness :
    fileKey "a" "" = "/" ++ "a" ∧
    "/" ++ "a" ≠ "a" ∧
    geoKey "a" "d" = "d" ++ "/" ++ "a" ++ ".geojson" ∧
    excelKey "a" "d" = "d" ++ "/" ++ "a" ++ ".xlsx" :=
  C4_amended_key_layout "a" "d"

/-- Concrete instance of `C5_one_row_per_object`: two stored objects and a
page cap of one force two pages, and both rows appear with their sizes. -/
theorem C5_one_row_per_object_witness :
    (list_files_with_sizes (.ok (servicePaginate ⟨[⟨"a", 3⟩, ⟨"b", 5⟩], 1⟩ ""))).1 =
      (matchingObjects ⟨[⟨"a", 3⟩, ⟨"b", 5⟩], 1⟩ "").map (fun o => (o.key, o.size)) ∧
    list_files_with_sizes (.error ⟨"SlowDown"⟩) =
      ([], ["Error listing files: " ++ "SlowDown"]) :=
  C5_one_row_per_object ⟨[⟨"a", 3⟩, ⟨"b", 5⟩], 1⟩ "" ⟨"SlowDown"⟩

/-- Concrete instance of `C9_tempfile_removed_on_all_paths` with an
uncaught exception in each body. -/
theorem C9_tempfile_removed_witness :
    ((upload_geodataframe_run .uncaught).events.head? = some Event.tempCreate ∧
      (upload_geodataframe_run .uncaught).events.getLast? = some Event.tempRemove ∧
      (upload_geodataframe_run .uncaught).events.count Event.tempRemove = 1) ∧
    ((@get_geodataframe_run Unit .uncaught).events.head? = some Event.tempCreate ∧
      (@get_geodataframe_run Unit .uncaught).events.getLast? = some Event.tempRemove ∧
      (@get_geodataframe_run Unit .uncaught).events.count Event.tempRemove = 1) ∧
    ((@get_excel_file_run Unit .uncaught).events.head? = some Event.tempCreate ∧
      (@get_excel_file_run Unit .uncaught).events.getLast? = some Event.tempRemove ∧
      (@get_excel_file_run Unit .uncaught).events.count Event.tempRemove = 1) :=
  @C9_tempfile_removed_on_all_paths Unit Unit .uncaught .uncaught .uncaught

/-- Concrete instance of `C10_geo_probe_refines_generic` at a service that
stores every key. -/
theorem C10_geo_probe_witness :
    check_geodataframe_exists (fun _ => .ok ()) "f" "d" =
      check_file_exists (fun _ => .ok ()) ("f" ++ ".geojson") "d" :=
  C10_geo_probe_refines_generic (fun _ => .ok ()) "f" "d"
